import Mathlib

/-!
Verification development for the ask-DB backend (Go).

The Go sources are shallowly embedded over `List Char` / `String`:
pure Go string functions become Lean functions, the Oracle pagination
wrapper becomes list semantics, stateful stores become explicit state
passing, and collaborator calls (LLM, template store, memory store)
become parameters of the orchestrator functions.
-/

namespace AskDB

/-! ## String primitives (Go `strings` package, over lists of characters) -/

/-- Whitespace as trimmed by `strings.TrimSpace` (ASCII subset; the
queries and column names handled by the service use these). -/
def goSpace (c : Char) : Bool :=
  c = ' ' || c = '\t' || c = '\n' || c = '\r' || c = '\x0b' || c = '\x0c'

/-- `strings.ToUpper` restricted to ASCII case mapping (`Char.toUpper`
uppercases exactly the ASCII letters, as Go does on this data). -/
def upStr (s : List Char) : List Char := s.map Char.toUpper

/-- `strings.ToLower` (ASCII case mapping). -/
def lowStr (s : List Char) : List Char := s.map Char.toLower

/-- `strings.TrimSpace`: drop leading and trailing whitespace. -/
def trimSpace (s : List Char) : List Char :=
  ((s.dropWhile goSpace).reverse.dropWhile goSpace).reverse

/-- `strings.HasPrefix p s` / `startsWith`: `p` is a prefix of `s`. -/
def startsWithL : List Char → List Char → Bool
  | _, [] => true
  | [], _ :: _ => false
  | a :: s, b :: p => a = b && startsWithL s p

/-- `strings.Contains s p`: `p` occurs as a contiguous substring of `s`. -/
def containsL : List Char → List Char → Bool
  | [], p => p.isEmpty
  | a :: s, p => startsWithL (a :: s) p || containsL s p

/-- `strings.HasSuffix s p`. -/
def endsWithL (s p : List Char) : Bool := startsWithL s.reverse p.reverse

/-- `strings.TrimSuffix s p`: remove one trailing copy of `p` when present. -/
def trimSuffixL (s p : List Char) : List Char :=
  if endsWithL s p then s.take (s.length - p.length) else s

/-- `strings.EqualFold` on the ASCII data this service compares. -/
def equalFold (a b : List Char) : Bool := upStr a = upStr b

/-! ## SQL safety validator (`backend/internal/executor/executor.go`) -/

/-- `isSelectQuery`: after trimming and upper-casing, the statement must
start with `SELECT` or `(`, or start with `WITH ` and contain `SELECT`. -/
def isSelectQuery (sql : List Char) : Bool :=
  let normalized := upStr (trimSpace sql)
  if startsWithL normalized ("WITH ".data) then
    containsL normalized ("SELECT".data)
  else
    startsWithL normalized ("SELECT".data) || startsWithL normalized ("(".data)

/-- Go's `regexp` class `\s`: `[\t\n\f\r ]`. -/
def regexSpace (c : Char) : Bool :=
  c = '\t' || c = '\n' || c = '\x0c' || c = '\r' || c = ' '

/-- The delimiter class `[\s\(;]` used by `hasDangerousKeywords`. -/
def kwDelim (c : Char) : Bool := regexSpace c || c = '(' || c = ';'

/-- Whether `kw` occurs in the remaining text delimited on the left by
`delim` (or the string start, encoded as `pre = none`) and on the right by
`delim` (or the string end). `pre` is the character just before the
remaining text. This is matchability of Go's
`(?:^|D)(kw)(?:D|$)` for a one-character class `D`. -/
def hasTokenWith (delim : Char → Bool) (kw : List Char) : Option Char → List Char → Bool
  | _, [] => false
  | pre, c :: t =>
    (startsWithL (c :: t) kw
      && (match pre with
          | none => true
          | some p => delim p)
      && (match (c :: t).drop kw.length with
          | [] => true
          | d :: _ => delim d))
    || hasTokenWith delim kw (some c) t

/-- The denylist of `hasDangerousKeywords`. -/
def dangerousKeywords : List (List Char) :=
  [("INSERT".data), ("UPDATE".data), ("DELETE".data), ("DROP".data),
   ("CREATE".data), ("ALTER".data), ("TRUNCATE".data), ("GRANT".data),
   ("REVOKE".data), ("EXEC".data), ("EXECUTE".data), ("PRAGMA".data),
   ("VACUUM".data), ("ANALYZE".data), ("ATTACH".data), ("DETACH".data)]

/-- `hasDangerousKeywords`: some denylisted verb occurs in the upper-cased
SQL delimited by `(?:^|[\s\(;])` on the left and `(?:[\s\(;]|$)` on the
right. -/
def hasDangerousKeywords (sql : List Char) : Bool :=
  let upperSQL := upStr sql
  dangerousKeywords.any (fun kw => hasTokenWith kwDelim kw none upperSQL)

/-- `hasSQLInjectionPatterns`: the Go loop compiles and matches each
pattern of its list but contains no `return true` statement — a match
only ever reaches the `continue` of the UNION whitelist check, and after
the loop the function falls through to `return false`. Its extension is
therefore the constant `false` (see `classicInjectionMatch` below for the
matching the loop performs on its fifth pattern). -/
def hasSQLInjectionPatterns (_sql : List Char) : Bool := false

/-- Body of `hasStackedQueries`'s comment stripper: first occurrence of
`*/` reachable without crossing a newline (Go's `.` in `/\*.*?\*/` does
not match `\n`); returns the text after it. -/
def findBlockClose : List Char → Option (List Char)
  | [] => none
  | '\n' :: _ => none
  | '*' :: '/' :: t => some t
  | _ :: t => findBlockClose t

/-- One step of `regexp.MustCompile('/\*.*?\*/|--.*?$').ReplaceAllString(sql, "")`,
run with explicit fuel (each step consumes at least one character, so
`fuel = length + 1` makes the fuel irrelevant to the result). A `--`
comment is removed only when the rest of the text contains no newline:
without the multiline flag `$` matches only at the end of the text and
`.` does not cross `\n`. -/
def stripCommentsFuel : Nat → List Char → List Char
  | 0, s => s
  | fuel + 1, s =>
    match s with
    | [] => []
    | '/' :: '*' :: t =>
      match findBlockClose t with
      | some rest => stripCommentsFuel fuel rest
      | none => '/' :: stripCommentsFuel fuel ('*' :: t)
    | '-' :: '-' :: t =>
      if t.contains '\n' then '-' :: stripCommentsFuel fuel ('-' :: t) else []
    | c :: t => c :: stripCommentsFuel fuel t

/-- The comment stripper of `hasStackedQueries`. -/
def stripComments (s : List Char) : List Char := stripCommentsFuel (s.length + 1) s

/-- The semicolon counter of `hasStackedQueries`: walk the cleaned text
tracking string-literal state (`inString`, `stringChar`), treating a quote
preceded by a backslash as escaped, and count semicolons outside
strings. `pre` is the previous character (`none` at the start). -/
def countTopSemis : Option Char → Bool → Char → List Char → Nat
  | _, _, _, [] => 0
  | pre, inString, stringChar, c :: t =>
    let isQuote := (c = '\'' || c = '"') && (pre = none || pre ≠ some '\\')
    let st :=
      if isQuote then
        if !inString then (true, c)
        else if c = stringChar then (false, stringChar)
        else (inString, stringChar)
      else (inString, stringChar)
    (if c = ';' && !st.1 then 1 else 0) + countTopSemis (some c) st.1 st.2 t

/-- `hasStackedQueries`: more than one top-level semicolon after comment
removal. -/
def hasStackedQueries (sql : List Char) : Bool :=
  countTopSemis none false (Char.ofNat 0) (stripComments sql) > 1

/-- `ValidateSQL`: `none` is acceptance; `some reason` is the rejection
reason, first failing check wins. -/
def validateSQL (sql : String) : Option String :=
  if sql = "" then some "SQL query cannot be empty"
  else
    let s := trimSpace sql.data
    if !isSelectQuery s then some "only SELECT queries are allowed"
    else if hasDangerousKeywords s then some "query contains forbidden keywords"
    else if hasSQLInjectionPatterns s then some "potential SQL injection detected"
    else if hasStackedQueries s then some "stacked queries are not allowed"
    else none

/-- Matchability of a chain of literal parts separated by `.*` gaps
(which, in Go regexp, cannot cross a newline), starting exactly at the
current position. Run with explicit fuel; every recursive call shortens
the text or the part list, so `fuel = length + parts + 1` suffices. -/
def chainNoNLFuel : Nat → List (List Char) → List Char → Bool
  | 0, _, _ => false
  | _, [], _ => true
  | fuel + 1, p :: ps, s =>
    (startsWithL s p && chainNoNLFuel fuel ps (s.drop p.length))
    || (match s with
        | [] => false
        | c :: t => c ≠ '\n' && chainNoNLFuel fuel (p :: ps) t)

/-- Matchability of the fifth pattern of `hasSQLInjectionPatterns`'s
list, `'.*OR.*'='` (the "classic injection" heuristic), against the
upper-cased SQL: a single quote, then `OR`, then `'='`, with the two
`.*` gaps not crossing a newline and the quote free to start anywhere. -/
def classicInjectionMatch (sql : List Char) : Bool :=
  go (upStr sql)
where
  go : List Char → Bool
    | [] => false
    | c :: t =>
      (c = '\'' &&
        chainNoNLFuel (t.length + 3) [("OR".data), ['\'', '=', '\'']] t)
      || go t

/-- Formalisation of the claim's "appears as a standalone token": an
occurrence of the verb delimited on both sides by the string boundary or
a non-word character (Go `\w` is `[0-9A-Za-z_]`). -/
def standaloneToken (kw s : List Char) : Bool :=
  hasTokenWith (fun c => !(c.isAlphanum || c = '_')) kw none s

/-! ## Pagination engine (`backend/internal/db/oracle.go`) -/

/-- A result cell; `none` models SQL NULL (Go `nil`). -/
abbrev Value := Option String

/-- One result row. -/
abbrev Row := List Value

/-- The response struct `models.SQLExecuteResponse`. -/
structure SQLResponse where
  success : Bool := false
  columns : List String := []
  rows : List Row := []
  rowCount : Nat := 0
  error : String := ""
  page : Int := 0
  pageSize : Int := 0
  hasMore : Bool := false
  maskedColumns : List String := []
deriving DecidableEq, Repr

/-- Outcome of running a statement on the database connection: the inner
query's column names and its full result set, or a driver error. -/
inductive EngineOutcome where
  | ok (cols : List String) (allRows : List Row)
  | fail (msg : String)
deriving DecidableEq, Repr

/-- `decorateColumns`: replace a column name by `comment(name)` when the
catalog lookup (`commentOf`, keyed by the upper-cased trimmed name)
yields a non-empty comment. -/
def decorateColumns (commentOf : List Char → Option String) (cols : List String) : List String :=
  cols.map fun col =>
    match commentOf (upStr (trimSpace col.data)) with
    | some comment => if comment ≠ "" then comment ++ "(" ++ col ++ ")" else col
    | none => col

/-- The synthetic `ROWNUM` value attached by the pagination wrapper. -/
def rnumVal (n : Nat) : Value := some (toString n)

/-- Extend each row with its row number, counting from `n`. -/
def attachRnum : Nat → List Row → List Row
  | _, [] => []
  | n, r :: t => (r ++ [rnumVal n]) :: attachRnum (n + 1) t

/-- Oracle semantics of the wrapper
`SELECT * FROM (SELECT inner.*, ROWNUM rnum FROM (sql) WHERE ROWNUM <= maxRow) WHERE rnum > offset`:
number the first `maxRow` rows of the inner result 1.., keep those whose
number exceeds `offset`, each extended with its row-number cell. -/
def windowRows (allRows : List Row) (maxRow offset : Nat) : List Row :=
  (attachRnum 1 (allRows.take maxRow)).drop offset

/-- Index of the first element satisfying `p` (the scan Go performs to
locate the `RNUM` column). -/
def findIdxO (p : α → Bool) : List α → Option Nat
  | [] => none
  | a :: l => if p a then some 0 else (findIdxO p l).map (· + 1)

/-- Scan loop of `ExecuteQueryRange`: delete the cell at the row-number
column's index when that index exists and is in range. -/
def stripAt (idx : Option Nat) (row : Row) : Row :=
  match idx with
  | none => row
  | some i => if i < row.length then row.eraseIdx i else row

/-- Delete the row-number column name itself (`rowNumIdx >= 0 && rowNumIdx < len(columns)`). -/
def stripColAt (idx : Option Nat) (cols : List String) : List String :=
  match idx with
  | none => cols
  | some i => if i < cols.length then cols.eraseIdx i else cols

/-- An error response as built by the early returns of the engine. -/
def errResponse (msg : String) : SQLResponse := { success := false, error := msg }

/-- `ExecuteQuery` (the unpaginated path taken when `limit <= 0`):
run the statement and return every row. Execution time is not modelled. -/
def executeQuery (eng : EngineOutcome) (commentOf : List Char → Option String) :
    SQLResponse × Option String :=
  match eng with
  | .fail msg => (errResponse msg, none)
  | .ok cols allRows =>
    ({ success := true
       columns := decorateColumns commentOf cols
       rows := allRows
       rowCount := allRows.length }, none)

/-- `ExecuteQueryRange`: the paginated path. `eng` is the database's
answer for the wrapped statement's inner query. The second component is
the hard error returned to the caller (`rows.Err()` is not modelled:
iteration succeeds whenever the query does). -/
def executeQueryRange (eng : EngineOutcome) (commentOf : List Char → Option String)
    (query : String) (offset limit : Int) : SQLResponse × Option String :=
  if limit ≤ 0 then executeQuery eng commentOf
  else
    let sanitized := trimSuffixL (trimSpace query.data) (";".data)
    if sanitized = [] then (errResponse "query cannot be empty", none)
    else
      let offset : Int := if offset < 0 then 0 else offset
      let maxRow := offset + limit + 1
      match eng with
      | .fail msg => (errResponse msg, none)
      | .ok cols allRows =>
        let columnsW := cols ++ ["RNUM"]
        let rowNumIdx := findIdxO (fun col => equalFold col.data ("RNUM".data)) columnsW
        let scanned := (windowRows allRows maxRow.toNat offset.toNat).map (stripAt rowNumIdx)
        let hasMore := decide (limit < (scanned.length : Int))
        let resultRows := if hasMore then scanned.take limit.toNat else scanned
        ({ success := true
           columns := decorateColumns commentOf (stripColAt rowNumIdx columnsW)
           rows := resultRows
           rowCount := resultRows.length
           hasMore := hasMore }, none)

/-! ## Executor (`backend/internal/executor/executor.go`) -/

/-- `models.SQLExecuteRequest`. -/
structure SQLExecuteRequest where
  sql : String
  timeout : Int := 0
  page : Int := 0
  pageSize : Int := 0
deriving DecidableEq, Repr

/-- The executor's configuration after `New` (page-size bounds and the
upper-cased trimmed sensitive-column set). -/
structure ExecConfig where
  defaultPageSize : Int := 50
  maxPageSize : Int := 200
  sensitiveCols : List (List Char) := []
deriving Repr

/-- The sensitive-column set as `New` builds it from the configuration:
trim, drop empties, upper-case. -/
def mkSensitiveCols (cfgCols : List String) : List (List Char) :=
  (cfgCols.map (fun col => trimSpace col.data)).filter (· ≠ []) |>.map upStr

/-- `maskingKeys`: the masking lookup keys of one returned column name —
the upper-cased full name and, when the name is decorated as
`comment(original)`, also the upper-cased original between the last `(`
and the trailing `)`. -/
def maskingKeys (col : String) : List (List Char) :=
  let colT := trimSpace col.data
  let upper := upStr colT
  if !endsWithL colT (")".data) then [upper]
  else
    let body := colT.dropLast
    let rev := body.reverse
    let inner := rev.takeWhile (· ≠ '(')
    if inner.length = rev.length then [upper]
    else
      let original := trimSpace inner.reverse
      if original = [] then [upper] else [upper, upStr original]

/-- Formalisation of the claim's "decoration-stripped name" of a
returned column: the text between the final `(` and the trailing `)` of
a decorated `comment(name)` column, the whole trimmed name otherwise;
upper-cased for the case-insensitive comparison. -/
def claimStrippedName (col : String) : List Char :=
  let colT := trimSpace col.data
  if !endsWithL colT (")".data) then upStr colT
  else
    let rev := colT.dropLast.reverse
    let inner := rev.takeWhile (· ≠ '(')
    if inner.length = rev.length then upStr colT
    else
      let original := trimSpace inner.reverse
      if original = [] then upStr colT else upStr original

/-- Whether `applyMasking` masks a column: one of its keys is in the
configured set. -/
def colMatches (sens : List (List Char)) (col : String) : Bool :=
  (maskingKeys col).any (fun key => sens.contains key)

/-- The `(index, name)` pairs of the columns `applyMasking` selects. -/
def maskedPairs (sens : List (List Char)) (cols : List String) : List (Nat × String) :=
  cols.enum.filter (fun p => colMatches sens p.2)

/-- The indices of the masked columns. -/
def maskedIndices (sens : List (List Char)) (cols : List String) : List Nat :=
  (maskedPairs sens cols).map Prod.fst

/-- Cell rewrite of `applyMasking` from column index `j` on: a non-null
cell sitting in a masked column becomes the mask token `"***"`. -/
def maskCells (idxs : List Nat) : Nat → Row → Row
  | _, [] => []
  | j, v :: t => (if idxs.contains j && v.isSome then some "***" else v) :: maskCells idxs (j + 1) t

/-- The row rewrite of `applyMasking`. -/
def maskRow (idxs : List Nat) (row : Row) : Row := maskCells idxs 0 row

/-- `applyMasking`: on a successful response with a non-empty sensitive
set, mask every selected column's non-null cells and report the selected
column names; otherwise leave the response untouched. -/
def applyMasking (sens : List (List Char)) (resp : SQLResponse) : SQLResponse :=
  if resp.success = false ∨ sens = [] then resp
  else if maskedPairs sens resp.columns = [] then resp
  else
    { resp with
      rows := resp.rows.map (maskRow (maskedIndices sens resp.columns))
      maskedColumns := (maskedPairs sens resp.columns).map Prod.snd }

/-- `SQLExecutor.ExecuteSQL`: validate, clamp page and page size, run the
paginated engine, stamp page/pageSize, mask. The returned pair is
`(response, hard error)`; the Go function always returns `err = nil`
(an engine error is only logged), which the model makes explicit. -/
def executeSQL (cfg : ExecConfig) (eng : EngineOutcome)
    (commentOf : List Char → Option String) (req : SQLExecuteRequest) :
    SQLResponse × Option String :=
  match validateSQL req.sql with
  | some reason => ({ success := false, error := reason }, none)
  | none =>
    let page := if req.page ≤ 0 then 1 else req.page
    let pageSize₀ := if req.pageSize ≤ 0 then cfg.defaultPageSize else req.pageSize
    let pageSize := if pageSize₀ > cfg.maxPageSize then cfg.maxPageSize else pageSize₀
    let offset := (page - 1) * pageSize
    let result := (executeQueryRange eng commentOf req.sql offset pageSize).1
    (applyMasking cfg.sensitiveCols { result with page := page, pageSize := pageSize }, none)

/-! ## Progress tracker (`internal/progress`, src/unnamed/part_004) -/

/-- `progress.Entry`. `updatedAt` stands for `time.Now()`; each mutation
receives the current instant as a parameter. -/
structure PEntry where
  id : String
  stage : String
  message : String
  done : Bool
  success : Bool
  error : String
  updatedAt : Nat
deriving DecidableEq, Repr

/-- The tracker's keyed map (`Store.items`). -/
def PStore := String → Option PEntry

/-- The empty store (`NewStore`). -/
def pEmpty : PStore := fun _ => none

/-- Map write `s.items[id] = entry`. -/
def pset (s : PStore) (id : String) (e : PEntry) : PStore :=
  fun k => if k = id then some e else s k

/-- `Store.Get` (the defensive copy is the identity in a pure model). -/
def pget (s : PStore) (id : String) : Option PEntry := s id

/-- `Store.Init`: unconditionally store a fresh entry for `id`. -/
def storeInit (s : PStore) (id stage message : String) (now : Nat) : PStore :=
  pset s id
    { id := id, stage := stage, message := message, done := false
      success := false, error := "", updatedAt := now }

/-- `Store.Update`: when present, rewrite stage and message. -/
def storeUpdate (s : PStore) (id stage message : String) (now : Nat) : PStore :=
  match pget s id with
  | none => s
  | some e => pset s id { e with stage := stage, message := message, updatedAt := now }

/-- `Store.Complete`: when present, mark completed and successful. -/
def storeComplete (s : PStore) (id message : String) (now : Nat) : PStore :=
  match pget s id with
  | none => s
  | some e =>
    pset s id
      { e with stage := "completed", message := message, done := true
               success := true, updatedAt := now }

/-- `Store.Fail`: when present, mark failed with the fixed user-facing
message and the error text. -/
def storeFail (s : PStore) (id message : String) (now : Nat) : PStore :=
  match pget s id with
  | none => s
  | some e =>
    pset s id
      { e with stage := "failed", message := "请求失败", error := message
               done := true, success := false, updatedAt := now }

/-! ## Request scoping (handlers.go, src/unnamed/part_002) -/

/-- `getUserRole`/`isAdmin`: the role claim equals `admin` up to case. -/
def isAdmin (role : String) : Bool := equalFold role.data ("admin".data)

/-- `scopedUserID`: the user scope of a read request, from the
authenticated `user_id`, the role claim and the `user_id` query
parameter. Admins may override with a non-blank query parameter; everyone
else gets their own id. -/
def scopedUserID (role authUserID queryUserID : String) : String :=
  if isAdmin role then
    let override := trimSpace queryUserID.data
    if override ≠ [] then ⟨override⟩ else authUserID
  else authUserID

/-! ## Template matching (`backend/internal/templates/service.go`) -/

/-- `templates.Record` (the fields `Match` reads). -/
structure Record where
  id : String
  name : String
  keywords : List String
  sql : String
  ownerID : String := ""
  isSystem : Bool := false
deriving DecidableEq, Repr

/-- `templates.Template` as returned to the orchestrator. -/
structure Template where
  id : String
  name : String
  keywords : List String
  sql : String
  ownerID : String
  isSystem : Bool
  editable : Bool
deriving DecidableEq, Repr

/-- `templateFromRecord`. -/
def templateFromRecord (rec : Record) (userID : String) : Template :=
  { id := rec.id, name := rec.name, keywords := rec.keywords, sql := rec.sql
    ownerID := rec.ownerID, isSystem := rec.isSystem
    editable := !rec.isSystem && rec.ownerID = userID }

/-- `matchScore`: count the template keywords (trimmed, lower-cased,
non-empty) occurring as substrings of the lower-cased query. -/
def matchScore (query : List Char) (keywords : List String) : Nat :=
  keywords.foldl
    (fun hits kw =>
      let kwN := lowStr (trimSpace kw.data)
      if kwN = [] then hits
      else if containsL query kwN then hits + 1 else hits)
    0

/-- The fold inside `Service.Match`: best (score, template) so far, a
later record replacing the best only on a strictly greater score. -/
def matchFold (query : List Char) (list : List Record) : Nat × Option Template :=
  list.foldl
    (fun acc rec =>
      let current := matchScore query rec.keywords
      if current > acc.1 then (current, some (templateFromRecord rec "")) else acc)
    (0, none)

/-- `Service.Match`: the best-scoring template, `none` below the
minimum-hits threshold of 2. `list` is what `store.ListAll()` returns. -/
def serviceMatch (list : List Record) (query : String) : Option Template :=
  let r := matchFold (lowStr query.data) list
  if r.1 < 2 then none else r.2

/-- The seeded system template of `defaultTemplates` (the parameters map
is not read by `Match` and is omitted). -/
def storeRecentActivity : Record :=
  { id := "store_recent_activity"
    name := "门店近30天新建记录"
    keywords := ["门店", "最近30天", "报表", "store", "新增"]
    sql := "SELECT VC2_STORE_CODE,
       VC2STORE_FULL_NAME,
       VC2AREA,
       VC2STATUS,
       CREATE_TIME
FROM (
    SELECT VC2_STORE_CODE,
           VC2STORE_FULL_NAME,
           VC2AREA,
           VC2STATUS,
           CREATE_TIME
    FROM SY2025.MM_STORE
    WHERE CREATE_TIME >= SYSDATE - 30
    ORDER BY CREATE_TIME DESC
)
WHERE ROWNUM <= 50"
    isSystem := true }

/-! ## Generation orchestrator (REST `GenerateSQL` and
`handleWebSocketGeneration`, src/unnamed/part_002) -/

/-- `models.SQLGenerateRequest` (the fields the terminal result depends
on; `context` and `table_names` only feed the LLM's context). -/
structure GenRequest where
  query : String
  sessionID : String := ""
  requestID : String := ""
deriving DecidableEq, Repr

/-- `models.SQLGenerateResponse`. -/
structure GenResponse where
  sql : String
  reasoning : String
  source : String
  templateID : String := ""
  usedMemory : Bool := false
  requestID : String := ""
deriving DecidableEq, Repr

/-- What the LLM collaborator produces on success: raw SQL and
reasoning (the handler fills in the remaining fields). -/
structure LLMResp where
  sql : String
  reasoning : String
deriving DecidableEq, Repr

/-- A handler's terminal outcome: a 200/`complete` payload or a
500/`error` frame. -/
inductive GenOutcome where
  | ok (resp : GenResponse)
  | err (msg : String)
deriving DecidableEq, Repr

/-- `needsGuidance`: empty SQL, an `ERROR` prefix, or an
unresolved-intent phrase. -/
def needsGuidance (sql : String) : Bool :=
  let s := trimSpace sql.data
  if s = [] then true
  else
    let upper := upStr s
    if startsWithL upper ("ERROR".data) then true
    else
      [("NOT FOUND".data), ("DOES NOT CONTAIN".data), ("NO TABLE".data)].any
        (fun k => containsL upper k)

/-- The template short-circuit response both handlers build from a
matched template (`命中内置报表模版：<name>`). -/
def templateResponse (tpl : Template) (requestID : String) : GenResponse :=
  { sql := tpl.sql
    reasoning := "命中内置报表模版：" ++ tpl.name
    source := "template"
    templateID := tpl.id
    usedMemory := false
    requestID := requestID }

/-- The guidance response `generateGuidanceResponse` builds from a hint
(`none` models the guidance call itself failing, in which case the Go
function returns `nil`). -/
def guidanceResponse (hint : String) (requestID : String) : GenResponse :=
  { sql := "", reasoning := hint, source := "assistant_hint"
    templateID := "", usedMemory := false, requestID := requestID }

/-- The REST handler `GenerateSQL` after authentication and binding, as a
function of its collaborators: the template store's records, the number
of memory entries `GetRecent` returned, the LLM outcome, and the guidance
collaborator's outcome. Progress, chat and metric side effects do not
affect the terminal result and are not modelled. `req.requestID` is the
effective id (the handler generates one when the request carries none). -/
def restGenerate (ts : List Record) (memLen : Nat)
    (llm : Except String LLMResp) (guidance : Option String)
    (req : GenRequest) : GenOutcome :=
  match serviceMatch ts req.query with
  | some tpl => .ok (templateResponse tpl req.requestID)
  | none =>
    match llm with
    | .error e =>
      match guidance with
      | some hint => .ok (guidanceResponse hint req.requestID)
      | none => .err e
    | .ok r =>
      let resp : GenResponse :=
        { sql := r.sql, reasoning := r.reasoning, source := "llm"
          templateID := "", usedMemory := decide (0 < memLen)
          requestID := req.requestID }
      if needsGuidance resp.sql then
        match guidance with
        | some hint => .ok (guidanceResponse hint req.requestID)
        | none => .ok resp
      else .ok resp

/-- The WebSocket handler `handleWebSocketGeneration` as a function of
the same collaborators (under the claim's identically-behaving-
collaborators hypothesis, `GenerateSQLStream` yields the same outcome as
`GenerateSQL`, so both handlers share the `llm` parameter). The `guidance`
collaborator is a parameter here too, although this handler never calls
it. -/
def wsGenerate (ts : List Record) (memLen : Nat)
    (llm : Except String LLMResp) (_guidance : Option String)
    (req : GenRequest) : GenOutcome :=
  match serviceMatch ts req.query with
  | some tpl => .ok (templateResponse tpl req.requestID)
  | none =>
    match llm with
    | .error e => .err e
    | .ok r =>
      .ok { sql := r.sql, reasoning := r.reasoning, source := "llm"
            templateID := "", usedMemory := decide (0 < memLen)
            requestID := req.requestID }

/-- Whether two terminal outcomes agree on the fields the claim lists:
sql, reasoning, source and used_memory (or are the same error). -/
def sameCore : GenOutcome → GenOutcome → Bool
  | .ok a, .ok b =>
    a.sql = b.sql && a.reasoning = b.reasoning
      && a.source = b.source && a.usedMemory = b.usedMemory
  | .err a, .err b => a = b
  | _, _ => false

/-! ## Helper lemmas -/

theorem startsWithL_length : ∀ s p : List Char, startsWithL s p = true → p.length ≤ s.length
  | _, [], _ => by simp
  | [], _ :: _, h => by simp [startsWithL] at h
  | a :: s, b :: p, h => by
    simp only [startsWithL, Bool.and_eq_true] at h
    have := startsWithL_length s p h.2
    simp only [List.length_cons]
    omega

/-- A validly SELECT-shaped statement survives the engine's
semicolon-trim non-empty. -/
theorem sanitized_ne_nil (sql : String)
    (hsel : startsWithL (upStr (trimSpace sql.data)) ("SELECT".data) = true) :
    trimSuffixL (trimSpace sql.data) (";".data) ≠ [] := by
  have h6 : 6 ≤ (trimSpace sql.data).length := by
    have h := startsWithL_length _ _ hsel
    simpa [upStr] using h
  unfold trimSuffixL
  split
  · intro hnil
    have := congrArg List.length hnil
    simp at this
    omega
  · intro hnil
    rw [hnil] at h6
    simp at h6

theorem eraseIdx_append_length {α : Type} : ∀ (xs : List α) (y : α),
    (xs ++ [y]).eraseIdx xs.length = xs
  | [], _ => rfl
  | a :: xs, y => by
    simpa [List.eraseIdx] using eraseIdx_append_length xs y

theorem attachRnum_strip (k : Nat) : ∀ (l : List Row) (n : Nat),
    (∀ r ∈ l, r.length = k) →
    (attachRnum n l).map (stripAt (some k)) = l
  | [], _, _ => rfl
  | r :: t, n, h => by
    have hr : r.length = k := h r (by simp)
    have ht : ∀ r' ∈ t, r'.length = k := fun r' hm => h r' (by simp [hm])
    simp only [attachRnum, List.map_cons, attachRnum_strip k t (n + 1) ht]
    congr 1
    simp only [stripAt]
    rw [if_pos (by simp [hr])]
    rw [← hr]
    exact eraseIdx_append_length r _

theorem attachRnum_length : ∀ (l : List Row) (n : Nat), (attachRnum n l).length = l.length
  | [], _ => rfl
  | _ :: t, n => by simp [attachRnum, attachRnum_length t (n + 1)]

theorem findIdxO_append_rnum (cols : List String)
    (h : ∀ c ∈ cols, equalFold c.data ("RNUM".data) = false) :
    findIdxO (fun col => equalFold col.data ("RNUM".data)) (cols ++ ["RNUM"])
      = some cols.length := by
  induction cols with
  | nil => rfl
  | cons a l ih =>
    have ha : equalFold a.data ("RNUM".data) = false := h a (by simp)
    have hl : ∀ c ∈ l, equalFold c.data ("RNUM".data) = false :=
      fun c hm => h c (by simp [hm])
    simp [findIdxO, ha, ih hl]

theorem maskCells_length (idxs : List Nat) : ∀ (j : Nat) (row : Row),
    (maskCells idxs j row).length = row.length
  | _, [] => rfl
  | j, _ :: t => by simp [maskCells, maskCells_length idxs (j + 1) t]

theorem maskRow_length (idxs : List Nat) (row : Row) :
    (maskRow idxs row).length = row.length := maskCells_length idxs 0 row

theorem maskCells_nil : ∀ (j : Nat) (row : Row), maskCells [] j row = row
  | _, [] => rfl
  | j, v :: t => by simp [maskCells, maskCells_nil (j + 1) t]

theorem maskRow_nil (row : Row) : maskRow [] row = row := maskCells_nil 0 row

theorem maskRow_nil_fun : maskRow [] = id := funext maskRow_nil

theorem maskedPairs_nil (cols : List String) : maskedPairs [] cols = [] := by
  simp [maskedPairs, colMatches]

/-! ## C1: the injection heuristics never reject -/

/-- C1. The SQL safety validator's injection check is dead code: the Go
loop in `hasSQLInjectionPatterns` has no `return true`, so a statement
matching the classic `'.*OR.*'='` tautology heuristic — while passing
the empty-input, SELECT-prefix and denylist checks — is accepted by
`ValidateSQL` instead of being rejected with
"potential SQL injection detected". -/
theorem C1_injection_check_dead :
    classicInjectionMatch ("SELECT * FROM users WHERE name = 'a' OR 'a'='a'".data) = true
    ∧ hasSQLInjectionPatterns
        (trimSpace ("SELECT * FROM users WHERE name = 'a' OR 'a'='a'".data)) = false
    ∧ validateSQL "SELECT * FROM users WHERE name = 'a' OR 'a'='a'" = none := by
  refine ⟨by decide, rfl, by decide⟩

/-! ## C2: the denylisted-verb check -/

/-- C2, counterexample. `DROP` appears as a standalone token of
`SELECT (DROP)` (delimited by `(` and `)`), yet `ValidateSQL` accepts
the statement: the keyword regex requires whitespace, `(` or `;` *after*
the verb as well, and `)` does not qualify. -/
theorem C2_counterexample :
    standaloneToken ("DROP".data) (upStr (trimSpace ("SELECT (DROP)".data))) = true
    ∧ ("DROP".data) ∈ dangerousKeywords
    ∧ validateSQL "SELECT (DROP)" = none := by
  refine ⟨by decide, by decide, by decide⟩

/-- C2, amended. Whenever a denylisted verb occurs in the upper-cased
trimmed SQL delimited on each side by whitespace, `(`, `;` or the string
boundary, `ValidateSQL` rejects the statement (whether at the
SELECT-prefix check or at the forbidden-keyword check). -/
theorem C2_denylist_rejects (sql : String) (kw : List Char)
    (hkw : kw ∈ dangerousKeywords)
    (h : hasTokenWith kwDelim kw none (upStr (trimSpace sql.data)) = true) :
    validateSQL sql ≠ none := by
  have hd : hasDangerousKeywords (trimSpace sql.data) = true := by
    unfold hasDangerousKeywords
    exact List.any_eq_true.mpr ⟨kw, hkw, h⟩
  intro hnone
  simp only [validateSQL, hd] at hnone
  split at hnone
  · exact Option.noConfusion hnone
  · split at hnone
    · exact Option.noConfusion hnone
    · exact Option.noConfusion hnone

/-- C2, witness: `DELETE` delimited by spaces in a SELECT statement is
rejected. -/
theorem C2_denylist_rejects_witness :
    validateSQL "SELECT * FROM T WHERE EXISTS (SELECT 1) AND DELETE = 1" ≠ none :=
  C2_denylist_rejects _ ("DELETE".data) (by decide) (by decide)

/-! ## C4: REST and WebSocket delivery adapters -/

/-- C4, counterexample. With identical collaborators — no matching
template, an LLM hard failure, and a guidance collaborator that
succeeds — the REST handler answers with the guidance result
(`source=assistant_hint`) while the WebSocket handler surfaces a
terminal error: the adapters do not produce the same terminal result. -/
theorem C4_counterexample :
    restGenerate [] 0 (.error "llm unavailable") (some "请换一种问法")
        { query := "门店查询", sessionID := "", requestID := "rid" }
      = .ok (guidanceResponse "请换一种问法" "rid")
    ∧ wsGenerate [] 0 (.error "llm unavailable") (some "请换一种问法")
        { query := "门店查询", sessionID := "", requestID := "rid" }
      = .err "llm unavailable"
    ∧ sameCore
        (restGenerate [] 0 (.error "llm unavailable") (some "请换一种问法")
          { query := "门店查询", sessionID := "", requestID := "rid" })
        (wsGenerate [] 0 (.error "llm unavailable") (some "请换一种问法")
          { query := "门店查询", sessionID := "", requestID := "rid" }) = false := by
  refine ⟨by decide, by decide, by decide⟩

/-- C4, amended. The adapters agree on the terminal result's sql,
reasoning, source and used_memory whenever the LLM call succeeds and the
returned SQL does not trip the `needsGuidance` re-check (this includes
every template short-circuit); only the REST handler applies the
guidance fallback on a hard LLM failure and the `needsGuidance` re-check
on the returned SQL. -/
theorem C4_adapters_agree (ts : List Record) (memLen : Nat) (r : LLMResp)
    (g : Option String) (req : GenRequest)
    (h : needsGuidance r.sql = false) :
    sameCore (restGenerate ts memLen (.ok r) g req)
             (wsGenerate ts memLen (.ok r) g req) = true := by
  cases hm : serviceMatch ts req.query with
  | some tpl => simp [restGenerate, wsGenerate, hm, sameCore]
  | none => simp [restGenerate, wsGenerate, hm, h, sameCore]

/-- C4, witness: a successful LLM answer flows through both adapters to
the same terminal result. -/
theorem C4_adapters_agree_witness :
    needsGuidance "SELECT 1 FROM DUAL" = false
    ∧ sameCore
        (restGenerate [] 1 (.ok { sql := "SELECT 1 FROM DUAL", reasoning := "直接查询" })
          none { query := "q", sessionID := "", requestID := "" })
        (wsGenerate [] 1 (.ok { sql := "SELECT 1 FROM DUAL", reasoning := "直接查询" })
          none { query := "q", sessionID := "", requestID := "" }) = true :=
  ⟨by decide, C4_adapters_agree [] 1 _ none _ (by decide)⟩

/-! ## C5: template short-circuit -/

/-- C5, counterexample. The query `store` contains (indeed equals) one
keyword of the seeded template, yet `Match` returns no template — the
minimum-hits threshold is 2 — and the orchestrator proceeds to the LLM,
producing `source=llm`, not the template's stored SQL. -/
theorem C5_counterexample :
    (storeRecentActivity.keywords.any fun kw =>
        containsL (lowStr ("store".data)) (lowStr (trimSpace kw.data))) = true
    ∧ serviceMatch [storeRecentActivity] "store" = none
    ∧ restGenerate [storeRecentActivity] 0
        (.ok { sql := "SELECT 1 FROM DUAL", reasoning := "llm answer" }) none
        { query := "store", sessionID := "", requestID := "rid" }
      = .ok { sql := "SELECT 1 FROM DUAL", reasoning := "llm answer", source := "llm"
              templateID := "", usedMemory := false, requestID := "rid" } := by
  refine ⟨by decide, by decide, by decide⟩

/-- Invariant of the fold inside `Service.Match`: the fold either keeps
the accumulator or returns the score and template of some record of the
list. -/
theorem matchFold_mem (q : List Char) : ∀ (list : List Record) (acc : Nat × Option Template),
    list.foldl
      (fun acc rec =>
        let current := matchScore q rec.keywords
        if current > acc.1 then (current, some (templateFromRecord rec "")) else acc)
      acc = acc
    ∨ ∃ rec ∈ list,
        list.foldl
          (fun acc rec =>
            let current := matchScore q rec.keywords
            if current > acc.1 then (current, some (templateFromRecord rec "")) else acc)
          acc = (matchScore q rec.keywords, some (templateFromRecord rec ""))
  | [], _ => Or.inl rfl
  | a :: l, acc => by
    simp only [List.foldl_cons]
    rcases matchFold_mem q l
        (if matchScore q a.keywords > acc.1
         then (matchScore q a.keywords, some (templateFromRecord a ""))
         else acc) with heq | ⟨rec, hmem, heq⟩
    · rw [heq]
      split
      · exact Or.inr ⟨a, by simp, rfl⟩
      · exact Or.inl rfl
    · exact Or.inr ⟨rec, by simp [hmem], heq⟩

/-- `matchFold` either returns the initial accumulator or the score and
template of some record of the list. -/
theorem matchFold_cases (q : List Char) (list : List Record) :
    matchFold q list = (0, none)
    ∨ ∃ rec ∈ list,
        matchFold q list = (matchScore q rec.keywords, some (templateFromRecord rec "")) := by
  have h := matchFold_mem q list (0, none)
  simpa [matchFold] using h

/-- C5, amended. The short-circuit fires exactly when `Match` returns a
template, which requires the winning record to score at least 2 keyword
hits on the lower-cased query; on a hit, the handler terminates with
`source=template`, `used_memory=false` and the record's stored SQL text
verbatim, for any behaviour of the LLM and guidance collaborators. -/
theorem C5_template_short_circuit (ts : List Record) (memLen : Nat)
    (llm : Except String LLMResp) (g : Option String) (req : GenRequest)
    (tpl : Template) (h : serviceMatch ts req.query = some tpl) :
    restGenerate ts memLen llm g req = .ok (templateResponse tpl req.requestID)
    ∧ ∃ rec ∈ ts, tpl = templateFromRecord rec ""
        ∧ tpl.sql = rec.sql
        ∧ 2 ≤ matchScore (lowStr req.query.data) rec.keywords := by
  constructor
  · simp [restGenerate, h]
  · have h' := h
    simp only [serviceMatch] at h'
    split at h'
    · exact Option.noConfusion h'
    · rename_i hscore
      rcases matchFold_cases (lowStr req.query.data) ts with heq | ⟨rec, hmem, heq⟩
      · rw [heq] at h'
        exact Option.noConfusion h'
      · rw [heq] at h' hscore
        have htpl : tpl = templateFromRecord rec "" := (Option.some.inj h').symm
        have hsc : ¬ matchScore (lowStr req.query.data) rec.keywords < 2 := by
          simpa using hscore
        refine ⟨rec, hmem, htpl, ?_, ?_⟩
        · rw [htpl]
          rfl
        · omega

set_option maxRecDepth 8192 in
/-- C5, witness: a query hitting two keywords of the seeded template
(`store` and `门店`) short-circuits to the template verbatim. -/
theorem C5_template_short_circuit_witness :
    restGenerate [storeRecentActivity] 0 (.error "llm down") none
        { query := "store 门店", sessionID := "", requestID := "rid" }
      = .ok (templateResponse (templateFromRecord storeRecentActivity "") "rid") :=
  (C5_template_short_circuit [storeRecentActivity] 0 (.error "llm down") none
    { query := "store 门店", sessionID := "", requestID := "rid" }
    (templateFromRecord storeRecentActivity "") (by decide)).1

/-! ## C3, C6, C7: the execution engine -/

theorem applyMasking_fields (sens : List (List Char)) (resp : SQLResponse) :
    (applyMasking sens resp).success = resp.success
    ∧ (applyMasking sens resp).columns = resp.columns
    ∧ (applyMasking sens resp).rowCount = resp.rowCount
    ∧ (applyMasking sens resp).hasMore = resp.hasMore
    ∧ (applyMasking sens resp).error = resp.error
    ∧ (applyMasking sens resp).rows.length = resp.rows.length := by
  unfold applyMasking
  split
  · exact ⟨rfl, rfl, rfl, rfl, rfl, rfl⟩
  · split
    · exact ⟨rfl, rfl, rfl, rfl, rfl, rfl⟩
    · exact ⟨rfl, rfl, rfl, rfl, rfl, by simp⟩

theorem applyMasking_row_lengths (sens : List (List Char)) (resp : SQLResponse) (k : Nat)
    (h : ∀ r ∈ resp.rows, r.length = k) :
    ∀ row ∈ (applyMasking sens resp).rows, row.length = k := by
  unfold applyMasking
  split
  · exact h
  · split
    · exact h
    · intro row hrow
      simp only [List.mem_map] at hrow
      obtain ⟨r₀, hr₀, hmask⟩ := hrow
      rw [← hmask, maskRow_length]
      exact h r₀ hr₀

/-- A driver failure of the wrapped statement is captured into the
response's error field; the hard-error component stays `none`. -/
theorem executeQueryRange_fail (commentOf : List Char → Option String)
    (q : String) (off lim : Int) (msg : String)
    (hsan : trimSuffixL (trimSpace q.data) (";".data) ≠ []) :
    executeQueryRange (.fail msg) commentOf q off lim = (errResponse msg, none) := by
  unfold executeQueryRange
  split
  · rfl
  · simp [hsan]

/-- The paginated engine on the first page: fetching a successful inner
result of `allRows` with `offset = 0` and `limit = n` returns the first
`min n total` rows, `has_more` exactly when more than `n` rows exist, and
the column list with the synthetic row-number column stripped. -/
theorem executeQueryRange_ok_first_page (commentOf : List Char → Option String)
    (cols : List String) (allRows : List Row) (sql : String) (n : Nat)
    (hsan : trimSuffixL (trimSpace sql.data) (";".data) ≠ [])
    (hn : 0 < n)
    (hcols : ∀ c ∈ cols, equalFold c.data ("RNUM".data) = false)
    (hrows : ∀ r ∈ allRows, r.length = cols.length) :
    executeQueryRange (.ok cols allRows) commentOf sql 0 (n : Int)
      = ({ success := true
           columns := decorateColumns commentOf cols
           rows := allRows.take n
           rowCount := min n allRows.length
           hasMore := decide (n < allRows.length) }, none) := by
  have hn' : ¬ ((n : Int) ≤ 0) := by omega
  have htn : ((0 : Int) + (n : Int) + 1).toNat = n + 1 := by omega
  have htn2 : ((n : Int)).toNat = n := by omega
  have hidx := findIdxO_append_rnum cols hcols
  have hstrip : (attachRnum 1 (allRows.take (n + 1))).map (stripAt (some cols.length))
      = allRows.take (n + 1) :=
    attachRnum_strip cols.length (allRows.take (n + 1)) 1
      (fun r hr => hrows r (List.take_subset _ _ hr))
  have hmore : decide ((n : Int) < ((allRows.take (n + 1)).length : Int))
      = decide (n < allRows.length) := by
    refine decide_eq_decide.mpr ?_
    rw [List.length_take]
    constructor
    · intro h
      have : n < min (n + 1) allRows.length := by exact_mod_cast h
      omega
    · intro h
      have : n < min (n + 1) allRows.length := by omega
      exact_mod_cast this
  have hcolstrip : stripColAt (some cols.length) (cols ++ ["RNUM"]) = cols := by
    dsimp only [stripColAt]
    rw [if_pos (by simp)]
    exact eraseIdx_append_length cols _
  have htake : (if decide (n < allRows.length) = true
        then (allRows.take (n + 1)).take n else allRows.take (n + 1))
      = allRows.take n := by
    by_cases hm : n < allRows.length
    · rw [if_pos (by simpa using hm), List.take_take]
      congr 1
      omega
    · rw [if_neg (by simpa using hm)]
      have hle : allRows.length ≤ n := by omega
      rw [List.take_of_length_le hle, List.take_of_length_le (by omega)]
  unfold executeQueryRange
  rw [if_neg hn']
  dsimp only []
  rw [if_neg hsan]
  rw [if_neg (by norm_num : ¬ ((0 : Int) < 0))]
  rw [htn, htn2, hidx]
  unfold windowRows
  rw [Int.toNat_zero, List.drop_zero, hstrip, hmore, hcolstrip, htake]
  have hlen : (allRows.take n).length = min n allRows.length := List.length_take n allRows
  rw [hlen]

/-- C6. `ExecuteSQL` never raises: its hard-error component is always
`nil`; a validator rejection is returned as `{success:false,
error:reason}`; and an engine failure on a validated SELECT is likewise
captured into the response's error field with `success=false`. -/
theorem C6_error_capture (cfg : ExecConfig) (eng : EngineOutcome)
    (commentOf : List Char → Option String) (req : SQLExecuteRequest) :
    (executeSQL cfg eng commentOf req).2 = none
    ∧ (∀ reason, validateSQL req.sql = some reason →
        (executeSQL cfg eng commentOf req).1
          = { success := false, error := reason })
    ∧ (∀ msg, validateSQL req.sql = none →
        startsWithL (upStr (trimSpace req.sql.data)) ("SELECT".data) = true →
        eng = .fail msg →
        (executeSQL cfg eng commentOf req).1.success = false
        ∧ (executeSQL cfg eng commentOf req).1.error = msg) := by
  refine ⟨?_, ?_, ?_⟩
  · unfold executeSQL
    cases hv : validateSQL req.sql <;> rfl
  · intro reason hr
    simp [executeSQL, hr]
  · intro msg hv hsel hfail
    subst hfail
    have hsan := sanitized_ne_nil req.sql hsel
    have hq := executeQueryRange_fail commentOf req.sql
      (((if req.page ≤ 0 then 1 else req.page) - 1)
        * (if (if req.pageSize ≤ 0 then cfg.defaultPageSize else req.pageSize)
             > cfg.maxPageSize
           then cfg.maxPageSize
           else if req.pageSize ≤ 0 then cfg.defaultPageSize else req.pageSize))
      (if (if req.pageSize ≤ 0 then cfg.defaultPageSize else req.pageSize)
           > cfg.maxPageSize
       then cfg.maxPageSize
       else if req.pageSize ≤ 0 then cfg.defaultPageSize else req.pageSize)
      msg hsan
    simp only [executeSQL, hv, hq]
    constructor <;> simp [applyMasking, errResponse]

/-- C6, witness: a rejected statement yields a soft failure and no hard
error, as does an engine failure on a valid SELECT. -/
theorem C6_error_capture_witness :
    (executeSQL {} (.fail "ORA-00942: table or view does not exist") (fun _ => none)
        { sql := "DELETE FROM T" }).1
      = { success := false, error := "only SELECT queries are allowed" }
    ∧ (executeSQL {} (.fail "ORA-00942: table or view does not exist") (fun _ => none)
        { sql := "SELECT * FROM NO_SUCH" }).2 = none
    ∧ (executeSQL {} (.fail "ORA-00942: table or view does not exist") (fun _ => none)
        { sql := "SELECT * FROM NO_SUCH" }).1.success = false
    ∧ (executeSQL {} (.fail "ORA-00942: table or view does not exist") (fun _ => none)
        { sql := "SELECT * FROM NO_SUCH" }).1.error
      = "ORA-00942: table or view does not exist" := by
  refine ⟨(C6_error_capture {} _ (fun _ => none) _).2.1 _ (by decide),
          (C6_error_capture {} _ (fun _ => none) _).1,
          ?_, ?_⟩
  · exact ((C6_error_capture {} _ (fun _ => none) _).2.2 _ (by decide) (by decide) rfl).1
  · exact ((C6_error_capture {} _ (fun _ => none) _).2.2 _ (by decide) (by decide) rfl).2

/-- C3. Executing a validated SELECT with `page=1` and `pageSize=n`
(within the configured maximum) over an inner result of `total` rows
returns exactly `min n total` rows, reports that number as `row_count`,
sets `has_more` exactly when `total > n`, and strips the synthetic
row-number column from the returned columns and from every returned row
(each row keeps its original width and the columns are the decorated
originals). -/
theorem C3_first_page_pagination (cfg : ExecConfig)
    (commentOf : List Char → Option String)
    (cols : List String) (allRows : List Row) (sql : String) (n : Nat)
    (hval : validateSQL sql = none)
    (hsel : startsWithL (upStr (trimSpace sql.data)) ("SELECT".data) = true)
    (hn : 0 < n) (hmax : (n : Int) ≤ cfg.maxPageSize)
    (hcols : ∀ c ∈ cols, equalFold c.data ("RNUM".data) = false)
    (hrows : ∀ r ∈ allRows, r.length = cols.length) :
    (executeSQL cfg (.ok cols allRows) commentOf
        { sql := sql, page := 1, pageSize := (n : Int) }).1.success = true
    ∧ (executeSQL cfg (.ok cols allRows) commentOf
        { sql := sql, page := 1, pageSize := (n : Int) }).1.rows.length
      = min n allRows.length
    ∧ (executeSQL cfg (.ok cols allRows) commentOf
        { sql := sql, page := 1, pageSize := (n : Int) }).1.rowCount
      = min n allRows.length
    ∧ (executeSQL cfg (.ok cols allRows) commentOf
        { sql := sql, page := 1, pageSize := (n : Int) }).1.hasMore
      = decide (n < allRows.length)
    ∧ (executeSQL cfg (.ok cols allRows) commentOf
        { sql := sql, page := 1, pageSize := (n : Int) }).1.columns
      = decorateColumns commentOf cols
    ∧ ∀ row ∈ (executeSQL cfg (.ok cols allRows) commentOf
        { sql := sql, page := 1, pageSize := (n : Int) }).1.rows,
        row.length = cols.length := by
  have hsan := sanitized_ne_nil sql hsel
  have hq := executeQueryRange_ok_first_page commentOf cols allRows sql n hsan hn hcols hrows
  have h1 : ¬ ((1 : Int) ≤ 0) := by norm_num
  have h2 : ¬ ((n : Int) ≤ 0) := by omega
  have h3 : ¬ ((n : Int) > cfg.maxPageSize) := not_lt.mpr hmax
  have hoff : ((1 : Int) - 1) * (n : Int) = 0 := by ring
  simp only [executeSQL, hval, if_neg h1, if_neg h2, if_neg h3, hoff, hq]
  obtain ⟨hf1, hf2, hf3, hf4, hf5, hf6⟩ := applyMasking_fields cfg.sensitiveCols
    { success := true
      columns := decorateColumns commentOf cols
      rows := allRows.take n
      rowCount := min n allRows.length
      hasMore := decide (n < allRows.length)
      page := 1, pageSize := (n : Int) }
  refine ⟨hf1, ?_, hf3, hf4, hf2, ?_⟩
  · rw [hf6]
    exact List.length_take n allRows
  · exact applyMasking_row_lengths _ _ _
      (fun r hr => hrows r (List.take_subset _ _ hr))

/-- C3, witness: three rows, page size 2 — two rows come back, the
row-number column is gone, and `has_more` is set. -/
theorem C3_first_page_pagination_witness :
    (executeSQL {} (.ok ["A"] [[some "1"], [some "2"], [some "3"]]) (fun _ => none)
        { sql := "SELECT A FROM T", page := 1, pageSize := (2 : Nat) }).1.rows.length = 2
    ∧ (executeSQL {} (.ok ["A"] [[some "1"], [some "2"], [some "3"]]) (fun _ => none)
        { sql := "SELECT A FROM T", page := 1, pageSize := (2 : Nat) }).1.hasMore = true
    ∧ (executeSQL {} (.ok ["A"] [[some "1"], [some "2"], [some "3"]]) (fun _ => none)
        { sql := "SELECT A FROM T", page := 1, pageSize := (2 : Nat) }).1.columns
      = decorateColumns (fun _ => none) ["A"] := by
  obtain ⟨hs, hlen, hcount, hmore, hcolsr, hrl⟩ :=
    C3_first_page_pagination {} (fun _ => none) ["A"]
      [[some "1"], [some "2"], [some "3"]] "SELECT A FROM T" 2
      (by decide) (by decide) (by decide) (by decide)
      (by decide) (by decide)
  refine ⟨?_, ?_, hcolsr⟩
  · rw [hlen]
    decide
  · rw [hmore]
    decide

/-! ## C7: sensitive-column masking -/

/-- C7, counterexample. A column whose decoration-stripped name (`B`) is
*not* in the configured set is nevertheless masked and reported, because
the code also matches the full decorated name (`A(B)`): the claim's
"leaves all cells of every non-matching column unchanged" and "reports
exactly those columns" fail at this input. -/
theorem C7_counterexample :
    claimStrippedName "A(B)" = ("B".data)
    ∧ (mkSensitiveCols ["A(B)"]).contains (claimStrippedName "A(B)") = false
    ∧ (applyMasking (mkSensitiveCols ["A(B)"])
        { success := true, columns := ["A(B)"], rows := [[some "v"]], rowCount := 1 }).rows
      = [[some "***"]]
    ∧ (applyMasking (mkSensitiveCols ["A(B)"])
        { success := true, columns := ["A(B)"], rows := [[some "v"]], rowCount := 1 }).maskedColumns
      = ["A(B)"] := by
  refine ⟨by decide, by decide, by decide, by decide⟩

/-- C7, amended. On a successful response, masking selects exactly the
columns one of whose masking keys — the upper-cased full decorated name
*or* the upper-cased decoration-stripped name — is in the configured
set: every non-null cell of a selected column becomes `***` (null cells
and all cells of unselected columns are unchanged, as `maskRow`
rewrites only selected indices), the selected column names are reported
in `masked_columns` when at least one column is selected, and the column
list itself is untouched. -/
theorem C7_masking_spec (sens : List (List Char)) (resp : SQLResponse)
    (h : resp.success = true) :
    (applyMasking sens resp).columns = resp.columns
    ∧ (applyMasking sens resp).rows
      = resp.rows.map (maskRow (maskedIndices sens resp.columns))
    ∧ (applyMasking sens resp).maskedColumns
      = (if maskedPairs sens resp.columns = [] then resp.maskedColumns
         else (maskedPairs sens resp.columns).map Prod.snd) := by
  by_cases hs : sens = []
  · subst hs
    simp [applyMasking, maskedPairs_nil, maskedIndices, maskRow_nil_fun]
  · by_cases hp : maskedPairs sens resp.columns = []
    · have hi : maskedIndices sens resp.columns = [] := by
        simp [maskedIndices, hp]
      simp [applyMasking, h, hs, hp, hi, maskRow_nil_fun]
    · simp [applyMasking, h, hs, hp]

/-- C7, witness: with `SALARY` configured, the `SALARY` column's non-null
cells are masked, the null cell survives as null, and the `NAME` column
is untouched. -/
theorem C7_masking_spec_witness :
    (applyMasking (mkSensitiveCols ["salary"])
        { success := true, columns := ["NAME", "SALARY"]
          rows := [[some "bob", some "100"], [some "eve", none]], rowCount := 2 }).rows
      = [[some "bob", some "***"], [some "eve", none]]
    ∧ (applyMasking (mkSensitiveCols ["salary"])
        { success := true, columns := ["NAME", "SALARY"]
          rows := [[some "bob", some "100"], [some "eve", none]], rowCount := 2 }).maskedColumns
      = ["SALARY"]
    ∧ (applyMasking (mkSensitiveCols ["salary"])
        { success := true, columns := ["NAME", "SALARY"]
          rows := [[some "bob", some "100"], [some "eve", none]], rowCount := 2 }).columns
      = ["NAME", "SALARY"] := by
  obtain ⟨hc, hr, hm⟩ := C7_masking_spec (mkSensitiveCols ["salary"])
    { success := true, columns := ["NAME", "SALARY"]
      rows := [[some "bob", some "100"], [some "eve", none]], rowCount := 2 } rfl
  refine ⟨?_, ?_, hc⟩
  · rw [hr]
    decide
  · rw [hm]
    decide

/-! ## C8: terminal-state monotonicity of the progress tracker -/

/-- C8, counterexample. After `Complete` marks the entry done, a
subsequent `Update` still rewrites its stage (from `completed` to
`llm_call`) — stage transitions are not frozen by `done=true`. -/
theorem C8_counterexample :
    (pget (storeComplete (storeInit pEmpty "r" "received" "收到请求" 1) "r" "生成完成" 2) "r").map
        (fun e => (e.done, e.stage))
      = some (true, "completed")
    ∧ (pget (storeUpdate
          (storeComplete (storeInit pEmpty "r" "received" "收到请求" 1) "r" "生成完成" 2)
          "r" "llm_call" "再次调用" 3) "r").map (fun e => (e.done, e.stage))
      = some (true, "llm_call") := by
  refine ⟨by decide, by decide⟩

/-- C8, amended. What does hold: `Update` never changes an entry's
`done`, `success` or `error` fields (for any id, any store); but it
rewrites `stage` and `message` even after a terminal `Complete`/`Fail`,
and `Complete`, `Fail` and `Init` can overwrite a terminal entry, so
stage transitions are not monotonic once `done=true`. -/
theorem C8_update_preserves_terminal_fields (s : PStore) (id stage message : String)
    (now : Nat) (k : String) :
    (pget (storeUpdate s id stage message now) k).map (fun e => (e.done, e.success, e.error))
      = (pget s k).map (fun e => (e.done, e.success, e.error)) := by
  unfold storeUpdate
  cases h : pget s id with
  | none => rfl
  | some e =>
    by_cases hk : k = id
    · subst hk
      have h' : s k = some e := h
      simp [pget, pset, h']
    · simp [pget, pset, hk]

/-! ## C9: duplicate Init -/

/-- C9, counterexample. `Init` on an already-present id is not a no-op:
after `Complete`, a duplicate `Init` resets `done` from `true` back to
`false` and the stage from `completed` back to the initial stage. -/
theorem C9_counterexample :
    (pget (storeComplete (storeInit pEmpty "r" "received" "收到" 1) "r" "完成" 2) "r").map
        (fun e => (e.done, e.stage))
      = some (true, "completed")
    ∧ (pget (storeInit
          (storeComplete (storeInit pEmpty "r" "received" "收到" 1) "r" "完成" 2)
          "r" "received" "收到" 3) "r").map (fun e => (e.done, e.stage))
      = some (false, "received") := by
  refine ⟨by decide, by decide⟩

/-- C9, amended. `Init` unconditionally overwrites: afterwards the entry
is exactly the fresh entry determined by `Init`'s arguments (done, success
false, error empty), independent of any prior state; consequently `Init`
is idempotent only in the algebraic sense that a second identical `Init`
recreates the same entry. The handler's `updateProgress` guards duplicate
pings by calling `Init` solely for absent ids. -/
theorem C9_init_overwrites (s : PStore) (id stage message : String) (now : Nat) :
    pget (storeInit s id stage message now) id
      = some { id := id, stage := stage, message := message, done := false
               success := false, error := "", updatedAt := now }
    ∧ storeInit (storeInit s id stage message now) id stage message now
      = storeInit s id stage message now := by
  constructor
  · simp [storeInit, pget, pset]
  · funext k
    simp only [storeInit, pset]
    split <;> rfl

/-! ## C10: non-admin scope ignores the user_id override -/

/-- C10. For a role claim that is not `admin` (case-insensitively), the
scope used for reading reports, chat history and memory sessions is the
authenticated user id, whatever the `user_id` query parameter says — two
requests differing only in that parameter resolve to the same scope. -/
theorem C10_non_admin_scope (role authUserID q1 q2 : String)
    (h : isAdmin role = false) :
    scopedUserID role authUserID q1 = authUserID
    ∧ scopedUserID role authUserID q1 = scopedUserID role authUserID q2 := by
  simp [scopedUserID, h]

/-- C10, witness: an `analyst` cannot redirect the scope to `bob`. -/
theorem C10_non_admin_scope_witness :
    isAdmin "analyst" = false
    ∧ scopedUserID "analyst" "alice" "bob" = "alice" :=
  ⟨by decide, (C10_non_admin_scope "analyst" "alice" "bob" "carol" (by decide)).1⟩

end AskDB
